import Mathlib

/-!
Verification of the derived physiological metrics engine of garmin-grafana.

The Python calculators in `garmin-fetch.py`, `custom_metrics.py` and
`method_test.py` are shallowly embedded below: numeric values become `ℚ`
(or `ℝ` where the Banister exponential is involved), Python `None` becomes
`Option`, and a Python function that can raise becomes an `Except`-valued
function whose `error` constructor records the exception class raised.
Python `round` (banker's rounding, also with a decimal-places argument) is
modelled exactly by `pyRound`/`roundq`.
-/

set_option autoImplicit false

namespace GarminMetrics

/-- Python `round(q)`: nearest integer, ties to even (banker's rounding). -/
def pyRound (q : ℚ) : ℤ :=
  let f : ℤ := ⌊q⌋
  let r : ℚ := q - f
  if r < 1/2 then f
  else if 1/2 < r then f + 1
  else if f % 2 = 0 then f else f + 1

/-- Python `round(q, d)`: round to `d` decimal places, ties to even. -/
def roundq (d : ℕ) (q : ℚ) : ℚ :=
  (pyRound (q * 10 ^ d) : ℚ) / 10 ^ d

/-- `statistics.mean` (guarded nonempty at every call site in the source). -/
def qmean (l : List ℚ) : ℚ :=
  l.sum / l.length

/-- Python `arr[-n:]`: the last `n` elements of a list. -/
def lastN (n : ℕ) (l : List ℚ) : List ℚ :=
  l.drop (l.length - n)

/-- Insert into a sorted list, keeping it sorted. -/
def insertSorted (x : ℚ) : List ℚ → List ℚ
  | [] => [x]
  | y :: ys => if x ≤ y then x :: y :: ys else y :: insertSorted x ys

/-- Sort a rational list ascending (the sort `statistics.median` performs). -/
def sortQ (l : List ℚ) : List ℚ :=
  l.foldr insertSorted []

/-- `statistics.median`: middle element of the sorted data for odd length,
mean of the two middle elements for even length (call sites guard nonempty). -/
def qmedian (l : List ℚ) : ℚ :=
  let s := sortQ l
  let n := s.length
  if n % 2 = 1 then s.getD (n / 2) 0
  else (s.getD (n / 2 - 1) 0 + s.getD (n / 2) 0) / 2

/-- `garmin-fetch.py::get_vo2max`: the heart-rate ratio (Uth) VO2max
estimator. Inputs are the daily stats' `restingHeartRate` and
`maxHeartRate`; the result is the list of emitted `estimatedVo2Max`
field values (one point, or none). -/
def get_vo2max (rhr maxhr : Option ℚ) : List ℚ :=
  match rhr, maxhr with
  | some r, some m =>
      if r ≤ 0 then []
      else [roundq 2 (153/10 * (m / r))]
  | _, _ => []

/-- One point of the `HRVTrend` measurement: the fields written by
`get_hrv_baseline` (`ratio` may be written as null). -/
structure HRVPoint where
  baseline : ℚ
  trend : ℚ
  ratio : Option ℚ
deriving DecidableEq

/-- `garmin-fetch.py::get_hrv_baseline` (identical copy in
`custom_metrics.py`), embedded over the non-null nightly HRV values `arr`
pulled from the trailing-28-night store query.  The Python body computes
`ratio = trend / baseline if baseline else None` and then executes
`logging.info(f"... ratio={ratio:.3f} ...")`; formatting `None` with
`:.3f` raises `TypeError`, so the zero-baseline branch raises instead of
returning its point — hence the `Except`. -/
def get_hrv_baseline (arr : List ℚ) : Except String (List HRVPoint) :=
  if arr.length < 7 then .ok []
  else
    let baseline := qmean (lastN 7 arr)
    let trend := qmean (lastN 3 arr)
    let ratio : Option ℚ := if baseline = 0 then none else some (trend / baseline)
    match ratio with
    | none => .error "TypeError"
    | some rt => .ok [⟨roundq 1 baseline, roundq 1 trend, some (roundq 3 rt)⟩]

/-- A parsed TCX trackpoint as `get_lactate_threshold` sees it: the
`HeartRateBpm` and `Speed` texts, absent (`none`) when the element is
missing or empty. -/
structure TrackPt where
  hr : Option ℚ
  sp : Option ℚ
deriving DecidableEq

/-- An activity summary paired with its downloaded track. -/
structure LTActivity where
  typeKey : String
  track : List TrackPt

/-- Python `int(q)` on a float: truncation toward zero. -/
def truncQ (q : ℚ) : ℤ :=
  if q < 0 then -⌊-q⌋ else ⌊q⌋

/-- Minutes component of the `mm:ss` pace rendering: `mins = int(med_pace)`. -/
def paceMins (p : ℚ) : ℤ :=
  truncQ p

/-- Seconds component of the `mm:ss` pace rendering:
`secs = int(round((med_pace - mins) * 60))`. -/
def paceSecs (p : ℚ) : ℤ :=
  pyRound ((p - (paceMins p : ℚ)) * 60)

/-- Python `f"\x7bn:02d\x7d"` for the integers produced here. -/
def pad2 (n : ℤ) : String :=
  if 0 ≤ n ∧ n < 10 then "0" ++ toString n else toString n

/-- The `pace_str = f"\x7bmins:02d\x7d:\x7bsecs:02d\x7d"` rendering. -/
def paceStr (p : ℚ) : String :=
  pad2 (paceMins p) ++ ":" ++ pad2 (paceSecs p)

/-- One point of the `LactateThreshold` measurement. -/
structure LTPoint where
  hr_lactate : ℚ
  pace_lactate_num : ℚ
  pace_lactate_str : String
deriving DecidableEq

/-- The pace sample one trackpoint contributes inside
`get_lactate_threshold`'s loop: skip when HR or speed text is missing,
skip non-positive speeds, then keep `(1000/speed)/60` when the HR is in
`[lo, hi]` and the speed exceeds 2 m/s. -/
def ltPaceOfPoint (lo hi : ℚ) (tp : TrackPt) : Option ℚ :=
  match tp.hr, tp.sp with
  | some h, some s =>
      if s ≤ 0 then none
      else if lo ≤ h ∧ h ≤ hi ∧ 2 < s then some ((1000 / s) / 60)
      else none
  | _, _ => none

/-- `pace_list`: the qualifying pace samples pooled over the date's
running activities, in track order. -/
def ltPaceList (lo hi : ℚ) (acts : List LTActivity) : List ℚ :=
  ((acts.filter (fun a => a.typeKey == "running")).map
    (fun a => a.track.filterMap (ltPaceOfPoint lo hi))).flatten

/-- `garmin-fetch.py::get_lactate_threshold` (identical copy in
`custom_metrics.py`): `if not maxhr: return []`, target band
`0.88*maxhr ± 3`, qualifying pace samples pooled over the running
activities, and one point with the rounded band center, the rounded
median pace and its `mm:ss` rendering when any sample qualifies. -/
def get_lactate_threshold (maxhr : Option ℚ) (acts : List LTActivity) : List LTPoint :=
  match maxhr with
  | none => []
  | some m =>
      if m = 0 then []
      else
        let target := 88/100 * m
        let paces := ltPaceList (target - 3) (target + 3) acts
        if paces = [] then []
        else [⟨roundq 1 target, roundq 2 (qmedian paces), paceStr (qmedian paces)⟩]

/-- The claim's wording of "some track point qualifies": a running
activity has a point whose HR lies in `[0.88*maxhr - 3, 0.88*maxhr + 3]`
and whose speed exceeds 2 m/s. -/
def ltQualifying (m : ℚ) (acts : List LTActivity) : Prop :=
  ∃ a ∈ acts, a.typeKey = "running" ∧
    ∃ tp ∈ a.track, ∃ h s, tp.hr = some h ∧ tp.sp = some s ∧
      88/100 * m - 3 ≤ h ∧ h ≤ 88/100 * m + 3 ∧ 2 < s

/-- Relative intensity `x = (hr_mid - rhr) / (maxhr - rhr)` of the
Banister TRIMP formula. -/
noncomputable def banisterIntensity (rhr maxhr hrMid : ℝ) : ℝ :=
  (hrMid - rhr) / (maxhr - rhr)

/-- The TRIMP contribution of one consecutive sample pair:
`dt_min * x * exp(1.92 * x)` when `x > 0`, else 0 (the `x <= 0` slice is
skipped by both Python copies). -/
noncomputable def trimpPair (rhr maxhr dtMin hrMid : ℝ) : ℝ :=
  if 0 < banisterIntensity rhr maxhr hrMid then
    dtMin * banisterIntensity rhr maxhr hrMid *
      Real.exp (1.92 * banisterIntensity rhr maxhr hrMid)
  else 0

/-- `garmin-fetch.py::get_training_load`'s accumulation loop: iterate
over all consecutive pairs of the raw intraday series (timestamp in ms,
bpm or null) and skip any pair in which either heart rate is null. -/
noncomputable def get_training_load_total (rhr maxhr : ℝ) :
    List (ℝ × Option ℝ) → ℝ
  | (t0, h0) :: (t1, h1) :: rest =>
      (match h0, h1 with
       | some a, some b =>
           trimpPair rhr maxhr ((t1 - t0) / 1000 / 60) ((a + b) / 2)
       | _, _ => 0) + get_training_load_total rhr maxhr ((t1, h1) :: rest)
  | _ => 0

/-- `custom_metrics.py::get_training_load`'s window construction: drop
null samples and keep timestamps with `start_ms ≤ t < end_ms`. -/
noncomputable def cm_window (startMs endMs : ℝ) (l : List (ℝ × Option ℝ)) :
    List (ℝ × ℝ) :=
  l.filterMap (fun p =>
    match p.2 with
    | some h => if startMs ≤ p.1 ∧ p.1 < endMs then some (p.1, h) else none
    | none => none)

/-- `custom_metrics.py::get_training_load`'s accumulation loop over the
already-filtered window: every adjacent pair of surviving samples
contributes. -/
noncomputable def cm_training_load_total (rhr maxhr : ℝ) :
    List (ℝ × ℝ) → ℝ
  | (t0, h0) :: (t1, h1) :: rest =>
      trimpPair rhr maxhr ((t1 - t0) / 1000 / 60) ((h0 + h1) / 2) +
        cm_training_load_total rhr maxhr ((t1, h1) :: rest)
  | _ => 0

/-- Pointwise comparison of optional heart rates: null stays null,
present values are raised. -/
def hrRel : Option ℝ → Option ℝ → Prop
  | none, none => True
  | some a, some b => a ≤ b
  | _, _ => False

/-- The segmentation scan of `get_vo2max_segmented`: walk the pooled
track `(timestamp, heart_rate_bpm, speed_m_s)` in order, growing `seg`
while `hr ≥ hr_thr`; a run that ends (below-threshold point or end of
track) is kept as a segment only when it holds at least 600 points. -/
def segScan (thr : ℚ) : List (ℚ × ℚ × ℚ) → List (ℚ × ℚ × ℚ) →
    List (List (ℚ × ℚ × ℚ))
  | seg, [] => if 600 ≤ seg.length then [seg] else []
  | seg, p :: rest =>
      if thr ≤ p.2.1 then segScan thr (seg ++ [p]) rest
      else (if 600 ≤ seg.length then [seg] else []) ++ segScan thr [] rest

/-- `hr_thr = rhr + 0.7 * (maxhr - rhr)`. -/
def hrThreshold (rhr maxhr : ℚ) : ℚ :=
  rhr + 7/10 * (maxhr - rhr)

/-- All points of all qualifying segments, pooled in order. -/
def pooledPoints (rhr maxhr : ℚ) (track : List (ℚ × ℚ × ℚ)) :
    List (ℚ × ℚ × ℚ) :=
  (segScan (hrThreshold rhr maxhr) [] track).flatten

/-- `garmin-fetch.py::get_vo2max_segmented` (identical copy in
`custom_metrics.py`) from the point where the pooled track is in hand
(`rhr`/`maxhr` already validated truthy with `maxhr > rhr`).  An empty
track, or no qualifying-segment point (`X` empty), emits the Uth ratio
value; otherwise the OLS slope is `num / den` with
`den = Σ (xi - mean X)²`, and the Python division raises
`ZeroDivisionError` when `den` is 0 — neither emitting copy has the
`den == 0` guard that `method_test.py` has. -/
def get_vo2max_segmented (rhr maxhr : ℚ) (track : List (ℚ × ℚ × ℚ)) :
    Except String (List ℚ) :=
  if track = [] then .ok [roundq 2 (153/10 * (maxhr / rhr))]
  else
    let X := (pooledPoints rhr maxhr track).map (fun p => p.2.1)
    let Y := (pooledPoints rhr maxhr track).map
      (fun p => 1/5 * (p.2.2 * 60) + 7/2)
    if X = [] then .ok [roundq 2 (153/10 * (maxhr / rhr))]
    else
      let xm := qmean X
      let ym := qmean Y
      let den := (X.map (fun xi => (xi - xm) ^ 2)).sum
      if den = 0 then .error "ZeroDivisionError"
      else
        let num := ((X.zip Y).map (fun p => (p.1 - xm) * (p.2 - ym))).sum
        let slope := num / den
        let intercept := ym - slope * xm
        .ok [roundq 2 (slope * maxhr + intercept)]

/-- An activity summary as `get_activity_vo2` reads it: its type key,
whether `startTimeGMT` is present, and the speed/power summary fields
(absent keys are `none`). -/
structure Activity where
  typeKey : String
  hasStart : Bool
  averageSpeed : Option ℚ
  maxSpeed : Option ℚ
  avgPower : Option ℚ
  averageWatts : Option ℚ
  maxPower : Option ℚ
  maxWatts : Option ℚ
deriving DecidableEq

/-- Python truthiness of an optional number: `None` and `0` are falsy. -/
def truthyQ : Option ℚ → Option ℚ
  | some x => if x = 0 then none else some x
  | none => none

/-- Python `a or b` followed by a truthiness test (`if avg_pw:`): the
value used is the first truthy operand, if any. -/
def firstTruthy (a b : Option ℚ) : Option ℚ :=
  match truthyQ a with
  | some x => some x
  | none => truthyQ b

/-- The activity-type whitelist of `get_activity_vo2`. -/
def activityTypeAllowed (t : String) : Bool :=
  t == "running" || t == "cycling" || t == "cycling_road" ||
    t == "cycling_mountain" || t == "cycling_indoor" ||
    t == "indoor_cycling" || t == "virtual_ride"

/-- Character-list prefix test. -/
def charPrefix : List Char → List Char → Bool
  | [], _ => true
  | _ :: _, [] => false
  | a :: as, b :: bs => a == b && charPrefix as bs

/-- Python `t.startswith(pat)`, modelled on the character lists of the
two strings. -/
def startsWithPy (t pat : String) : Bool :=
  charPrefix pat.toList t.toList

/-- The cycling-branch condition
`typ.startswith("cycling") or typ.startswith("virtual_ride") or
typ.startswith("indoor_cycling")`. -/
def cyclingLike (t : String) : Bool :=
  startsWithPy t "cycling" || startsWithPy t "virtual_ride" ||
    startsWithPy t "indoor_cycling"

/-- One point of the `ActivityVO2Est` measurement: the emitted fields
(each `none` when the code does not set it). -/
structure AVo2Point where
  activityType : String
  vo2_run_avg : Option ℚ
  vo2_run_peak : Option ℚ
  vo2_cyc_avg : Option ℚ
  vo2_cyc_peak : Option ℚ
deriving DecidableEq

/-- ACSM running VO2 `0.2 * (speed * 60) + 3.5`, as emitted (rounded). -/
def vo2RunField (s : ℚ) : ℚ :=
  roundq 2 (1/5 * (s * 60) + 7/2)

/-- ACSM cycle-ergometry VO2 `(1.8 * (watts * 6.12) / w) + 7`, as
emitted (rounded), for the weight `w` the loop currently holds. -/
def vo2CycField (w p : ℚ) : ℚ :=
  roundq 2 (9/5 * (p * 612/100) / w + 7)

/-- One iteration of `get_activity_vo2`'s activity loop: returns the
weight variable after the iteration (the cycling branch reassigns
`weight = weight / 1000.0` — a loop-carried mutation) and the point
emitted for this activity, if its fields are non-empty. -/
def activity_vo2_step (w : Option ℚ) (act : Activity) :
    Option ℚ × Option AVo2Point :=
  if ¬ activityTypeAllowed act.typeKey then (w, none)
  else if ¬ act.hasStart then (w, none)
  else
    let runAvg : Option ℚ :=
      if act.typeKey == "running" then (truthyQ act.averageSpeed).map vo2RunField
      else none
    let runPeak : Option ℚ :=
      if act.typeKey == "running" then (truthyQ act.maxSpeed).map vo2RunField
      else none
    match w with
    | some wv =>
        if cyclingLike act.typeKey ∧ wv ≠ 0 then
          let w' := wv / 1000
          let cycAvg := (firstTruthy act.avgPower act.averageWatts).map (vo2CycField w')
          let cycPeak := (firstTruthy act.maxPower act.maxWatts).map (vo2CycField w')
          if runAvg = none ∧ runPeak = none ∧ cycAvg = none ∧ cycPeak = none then
            (some w', none)
          else (some w', some ⟨act.typeKey, runAvg, runPeak, cycAvg, cycPeak⟩)
        else
          if runAvg = none ∧ runPeak = none then (w, none)
          else (w, some ⟨act.typeKey, runAvg, runPeak, none, none⟩)
    | none =>
        if runAvg = none ∧ runPeak = none then (w, none)
        else (w, some ⟨act.typeKey, runAvg, runPeak, none, none⟩)

/-- The activity loop of `get_activity_vo2`, threading the mutable
`weight` variable through the iterations. -/
def activity_vo2_go (w : Option ℚ) : List Activity → List AVo2Point
  | [] => []
  | act :: rest =>
      match activity_vo2_step w act with
      | (w', some p) => p :: activity_vo2_go w' rest
      | (w', none) => activity_vo2_go w' rest

/-- `garmin-fetch.py::get_activity_vo2` (identical copy in
`custom_metrics.py`): `weight0` is the weight resolved before the loop
(same-day weigh-in, else last stored `BodyComposition` value). -/
def get_activity_vo2 (weight0 : Option ℚ) (acts : List Activity) :
    List AVo2Point :=
  activity_vo2_go weight0 acts

/-- One point of the `TrainingReadiness` measurement. -/
structure TRPoint where
  readiness : ℤ
  ctl : ℚ
  atl : ℚ
  tsb : ℚ
  sleepScore : ℚ
  sleepHist : ℚ
  avgOvernightHrv : ℚ
  stressPct : ℚ
deriving DecidableEq

/-- `garmin-fetch.py::get_training_readiness` (identical copy in
`custom_metrics.py`), embedded over the query results: `loads7`/`loads42`
the non-null TRIMP values of the 7- and 42-day windows, `sleepRec` the
same-day sleep-summary row (`none` when the query returns no row; its
two components are the possibly-null `last("sleepScore")` and
`last("avgOvernightHrv")` columns), `sleeps` the non-null 3-night sleep
scores and `stress_pcts` the non-null 3-day stress percentages.  The
code guards `hrv is None` but not a null `sleepScore`, for which
`min(sleep_last / 100.0, 1.0)` raises `TypeError`. -/
def get_training_readiness (loads7 loads42 : List ℚ)
    (sleepRec : Option (Option ℚ × Option ℚ)) (sleeps : List ℚ)
    (stress_pcts : List ℚ) : Except String (List TRPoint) :=
  let today_trimp := (loads7.getLast?).getD 0
  let ctl := if loads42 = [] then 0 else qmean loads42
  let atl := if loads7 = [] then 0 else qmean loads7
  let acute_score := if 0 < atl then 1 - min (today_trimp / atl) 1 else 1
  let recovery_score := acute_score
  let sleep_last : Option ℚ :=
    match sleepRec with
    | none => some 0
    | some (slp, _) => slp
  let hrv : ℚ :=
    match sleepRec with
    | none => 0
    | some (_, h) => h.getD 0
  match sleep_last with
  | none => .error "TypeError"
  | some sl =>
      let sleep_score := min (sl / 100) 1
      let hrv_score := min (hrv / 50) 1
      let sleep_hist_score := if sleeps = [] then sleep_score else qmean sleeps / 100
      let avg_pct := if stress_pcts = [] then 0 else qmean stress_pcts
      let stress_score :=
        if stress_pcts.length < 3 then 1/2 else 1 - min (avg_pct / 100) 1
      let readiness := 1/5 * acute_score + 1/5 * hrv_score +
        1/5 * recovery_score + 3/20 * sleep_score +
        3/20 * sleep_hist_score + 1/10 * stress_score
      .ok [⟨pyRound (readiness * 100), roundq 1 ctl, roundq 1 atl,
            roundq 1 (ctl - atl), roundq 1 sl,
            roundq 1 (sleep_hist_score * 100), roundq 1 hrv,
            roundq 1 avg_pct⟩]

end GarminMetrics

namespace GarminMetrics

/-- C6: the ratio-method VO2max estimator emits exactly one point valued
`round2 (15.3 * (max_hr / resting_hr))` when both stats are present and
`resting_hr > 0`, and no point when either is absent or `resting_hr ≤ 0`. -/
theorem vo2max_ratio_spec (r m : ℚ) :
    (0 < r → get_vo2max (some r) (some m) = [roundq 2 (153/10 * (m / r))]) ∧
    (r ≤ 0 → get_vo2max (some r) (some m) = []) ∧
    get_vo2max none (some m) = [] ∧
    get_vo2max (some r) none = [] ∧
    get_vo2max none none = [] := by
  refine ⟨fun h => ?_, fun h => ?_, rfl, rfl, rfl⟩
  · simp [get_vo2max, not_le.mpr h]
  · simp [get_vo2max, h]

/-- C6 witness: `resting_hr = 40`, `max_hr = 160` yields the single point
`61.2`. -/
theorem vo2max_ratio_spec_witness :
    0 < (40:ℚ) ∧ get_vo2max (some 40) (some 160) = [306/5] := by
  refine ⟨by norm_num, ?_⟩
  rw [(vo2max_ratio_spec 40 160).1 (by norm_num)]
  norm_num [roundq, pyRound]

/-- C3 (code bug evidence): with seven nightly values present and all
zero, the baseline is 0, the ratio is `None`, and the estimator raises
`TypeError` from its success-logging line instead of returning the point
with a null ratio field. -/
theorem hrv_baseline_zero_raises_eval :
    get_hrv_baseline [0, 0, 0, 0, 0, 0, 0] = .error "TypeError" := by
  norm_num [get_hrv_baseline, qmean, lastN]

/-- C7 counterexample: a window with exactly 7 present values whose mean
is zero makes the estimator raise, so it does not emit the
baseline/trend point the claim promises for every 7-value history. -/
theorem hrv_baseline_exact7_counterexample :
    ([1, -1, 2, -2, 3, -3, (0:ℚ)]).length = 7 ∧
    get_hrv_baseline [1, -1, 2, -2, 3, -3, (0:ℚ)] = .error "TypeError" := by
  refine ⟨rfl, ?_⟩
  norm_num [get_hrv_baseline, qmean, lastN]

/-- C7 (amended): with fewer than 7 present values the HRV baseline
estimator returns no point; with exactly 7 present values whose mean is
nonzero it emits one point whose baseline field is the (rounded) mean of
all 7 values and whose trend field is the (rounded) mean of the last 3. -/
theorem hrv_baseline_count_spec (arr : List ℚ) :
    (arr.length < 7 → get_hrv_baseline arr = .ok []) ∧
    (arr.length = 7 → qmean arr ≠ 0 →
      get_hrv_baseline arr =
        .ok [⟨roundq 1 (qmean arr), roundq 1 (qmean (lastN 3 arr)),
              some (roundq 3 (qmean (lastN 3 arr) / qmean arr))⟩]) := by
  constructor
  · intro h
    simp [get_hrv_baseline, h]
  · intro h7 hb
    have hl : lastN 7 arr = arr := by simp [lastN, h7]
    simp [get_hrv_baseline, h7, hl, hb]

/-- C7 witness: seven nightly values `[50,52,54,56,58,60,62]` give
baseline `round1 (mean all 7) = 56` and trend `round1 (mean last 3) = 60`. -/
theorem hrv_baseline_count_spec_witness :
    ([50, 52, 54, 56, 58, 60, (62:ℚ)]).length = 7 ∧
    qmean [50, 52, 54, 56, 58, 60, (62:ℚ)] ≠ 0 ∧
    get_hrv_baseline [50, 52, 54, 56, 58, 60, 62] =
      .ok [⟨56, 60, some (1071/1000)⟩] := by
  refine ⟨rfl, by norm_num [qmean], ?_⟩
  rw [(hrv_baseline_count_spec [50, 52, 54, 56, 58, 60, 62]).2 rfl
    (by norm_num [qmean])]
  norm_num [qmean, lastN, roundq, pyRound]

lemma ltPaceOfPoint_eq_none_iff (lo hi : ℚ) (tp : TrackPt) :
    ltPaceOfPoint lo hi tp = none ↔
      ¬ ∃ h s, tp.hr = some h ∧ tp.sp = some s ∧ lo ≤ h ∧ h ≤ hi ∧ 2 < s := by
  obtain ⟨ohr, osp⟩ := tp
  cases ohr with
  | none => simp [ltPaceOfPoint]
  | some h =>
    cases osp with
    | none => simp [ltPaceOfPoint]
    | some s =>
      simp only [ltPaceOfPoint, Option.some.injEq]
      constructor
      · intro hnone hq
        obtain ⟨h', s', hh, hs, hlo, hhi, h2⟩ := hq
        subst hh; subst hs
        rw [if_neg (by linarith), if_pos ⟨hlo, hhi, h2⟩] at hnone
        exact Option.some_ne_none _ hnone
      · intro hq
        by_cases h0 : s ≤ 0
        · rw [if_pos h0]
        · rw [if_neg h0, if_neg]
          intro ⟨hlo, hhi, h2⟩
          exact hq ⟨h, s, rfl, rfl, hlo, hhi, h2⟩

lemma ltPaceList_eq_nil_iff (lo hi : ℚ) (acts : List LTActivity) :
    ltPaceList lo hi acts = [] ↔
      ∀ a ∈ acts, a.typeKey = "running" →
        ∀ tp ∈ a.track, ltPaceOfPoint lo hi tp = none := by
  simp only [ltPaceList, List.flatten_eq_nil_iff, List.mem_map,
    List.mem_filter, beq_iff_eq]
  constructor
  · intro H a ha hrun tp htp
    exact List.filterMap_eq_nil_iff.mp (H _ ⟨a, ⟨ha, hrun⟩, rfl⟩) tp htp
  · rintro H l ⟨a, ⟨ha, hrun⟩, rfl⟩
    exact List.filterMap_eq_nil_iff.mpr (H a ha hrun)

lemma ltQualifying_iff_paces_ne_nil (m : ℚ) (acts : List LTActivity) :
    ltQualifying m acts ↔
      ltPaceList (88/100 * m - 3) (88/100 * m + 3) acts ≠ [] := by
  rw [Ne, ltPaceList_eq_nil_iff]
  constructor
  · rintro ⟨a, ha, hrun, tp, htp, h, s, hh, hs, hlo, hhi, h2⟩ H
    exact (ltPaceOfPoint_eq_none_iff _ _ tp).mp (H a ha hrun tp htp)
      ⟨h, s, hh, hs, hlo, hhi, h2⟩
  · intro H
    by_contra hq
    apply H
    intro a ha hrun tp htp
    rw [ltPaceOfPoint_eq_none_iff]
    rintro ⟨h, s, hh, hs, hlo, hhi, h2⟩
    exact hq ⟨a, ha, hrun, tp, htp, h, s, hh, hs, hlo, hhi, h2⟩

/-- C8: for a present nonzero max HR, the lactate-threshold estimator
returns no point exactly when no track point of the date's running
activities has HR inside `[0.88*maxhr - 3, 0.88*maxhr + 3]` with speed
above 2 m/s; when some point qualifies it emits one point carrying the
(rounded) band center `0.88*maxhr` and the (rounded) median of the
qualifying pace samples `(1000/speed)/60`. -/
theorem lactate_threshold_spec (m : ℚ) (acts : List LTActivity) (hm : m ≠ 0) :
    (get_lactate_threshold (some m) acts = [] ↔ ¬ ltQualifying m acts) ∧
    (ltQualifying m acts →
      get_lactate_threshold (some m) acts =
        [⟨roundq 1 (88/100 * m),
          roundq 2 (qmedian (ltPaceList (88/100 * m - 3) (88/100 * m + 3) acts)),
          paceStr (qmedian (ltPaceList (88/100 * m - 3) (88/100 * m + 3) acts))⟩]) := by
  rw [ltQualifying_iff_paces_ne_nil, not_not]
  constructor
  · by_cases hp : ltPaceList (88/100 * m - 3) (88/100 * m + 3) acts = []
    · simp [get_lactate_threshold, hm, hp]
    · simp [get_lactate_threshold, hm, hp]
  · intro hp
    simp [get_lactate_threshold, hm, hp]

/-- C8 witness: max HR 150 with a single running trackpoint at HR 132
and speed 3 m/s qualifies (band `[129,135]`) and yields the point with
band center 132 and median pace `round2 ((1000/3)/60) = 5.56`,
rendered `05:33`. -/
theorem lactate_threshold_spec_witness :
    (150:ℚ) ≠ 0 ∧
    ltQualifying 150 [⟨"running", [⟨some 132, some 3⟩]⟩] ∧
    get_lactate_threshold (some 150) [⟨"running", [⟨some 132, some 3⟩]⟩] =
      [⟨132, 139/25, "05:33"⟩] := by
  have hq : ltQualifying 150 [⟨"running", [⟨some 132, some 3⟩]⟩] :=
    ⟨_, List.mem_singleton.mpr rfl, rfl, _, List.mem_singleton.mpr rfl,
      132, 3, rfl, rfl, by norm_num, by norm_num, by norm_num⟩
  refine ⟨by norm_num, hq, ?_⟩
  rw [(lactate_threshold_spec 150 _ (by norm_num)).2 hq]
  have hp : ltPaceList (88/100 * 150 - 3) (88/100 * 150 + 3)
      [⟨"running", [⟨some 132, some 3⟩]⟩] = [50/9] := by
    norm_num [ltPaceList, ltPaceOfPoint, List.filterMap_cons]
  have hmed : qmedian [50/9] = 50/9 := by
    norm_num [qmedian, sortQ, insertSorted]
  rw [hp, hmed]
  have h1 : roundq 1 (88/100 * 150) = 132 := by norm_num [roundq, pyRound]
  have h2 : roundq 2 (50/9) = 139/25 := by norm_num [roundq, pyRound]
  have hmin : paceMins (50/9) = 5 := by norm_num [paceMins, truncQ]
  have hsec : paceSecs (50/9) = 33 := by
    rw [paceSecs, hmin]; norm_num [pyRound]
  have h3 : paceStr (50/9) = "05:33" := by
    rw [paceStr, hmin, hsec]
    norm_num [pad2]
    rfl
  rw [h1, h2, h3]

lemma pyRound_bounds (q : ℚ) : ⌊q⌋ ≤ pyRound q ∧ pyRound q ≤ ⌊q⌋ + 1 := by
  simp only [pyRound]
  split_ifs <;> omega

/-- C10 counterexample: a single qualifying running point at speed
`2500/449` m/s gives median pace `449/150 ≈ 2.9933` min/km, whose
fractional minutes are `59.6` seconds; Python `round` takes that to 60,
so the emitted string is `02:60` — the seconds component is not in the
00–59 range the claim asserts. -/
theorem lactate_pace_str_counterexample :
    get_lactate_threshold (some 150) [⟨"running", [⟨some 132, some (2500/449)⟩]⟩] =
      [⟨132, 299/100, "02:60"⟩] ∧
    paceSecs (449/150) = 60 ∧ ¬ paceSecs (449/150) ≤ 59 := by
  have hp : ltPaceList (88/100 * 150 - 3) (88/100 * 150 + 3)
      [⟨"running", [⟨some 132, some (2500/449)⟩]⟩] = [449/150] := by
    norm_num [ltPaceList, ltPaceOfPoint, List.filterMap_cons]
  have hmed : qmedian [449/150] = 449/150 := by
    norm_num [qmedian, sortQ, insertSorted]
  have hmin : paceMins (449/150) = 2 := by norm_num [paceMins, truncQ]
  have hsec : paceSecs (449/150) = 60 := by
    rw [paceSecs, hmin]; norm_num [pyRound]
  refine ⟨?_, hsec, by omega⟩
  have hres := (lactate_threshold_spec 150
    [⟨"running", [⟨some 132, some (2500/449)⟩]⟩] (by norm_num)).2
    ((ltQualifying_iff_paces_ne_nil 150 _).mpr (by rw [hp]; simp))
  rw [hres, hp, hmed]
  have h1 : roundq 1 (88/100 * 150) = 132 := by norm_num [roundq, pyRound]
  have h2 : roundq 2 (449/150) = 299/100 := by norm_num [roundq, pyRound]
  have h3 : paceStr (449/150) = "02:60" := by
    rw [paceStr, hmin, hsec]
    norm_num [pad2]
    rfl
  rw [h1, h2, h3]

/-- C10 (amended): for every non-negative median pace, the minutes
component of the `mm:ss` rendering is the integer part of the pace and
the seconds component (the fractional minutes rounded to the nearest
second, ties to even) lies in the range 0–60 inclusive — it reaches 60
exactly in the carry case the counterexample exhibits. -/
theorem pace_render_spec (p : ℚ) (hp : 0 ≤ p) :
    paceMins p = ⌊p⌋ ∧ 0 ≤ paceSecs p ∧ paceSecs p ≤ 60 := by
  have hm : paceMins p = ⌊p⌋ := by
    simp [paceMins, truncQ, not_lt.mpr hp]
  refine ⟨hm, ?_, ?_⟩ <;>
  · have hq0 : 0 ≤ (p - (paceMins p : ℚ)) * 60 := by
      rw [hm]
      have := Int.floor_le p
      nlinarith
    have hq60 : (p - (paceMins p : ℚ)) * 60 < 60 := by
      rw [hm]
      have := Int.lt_floor_add_one p
      nlinarith
    have hb := pyRound_bounds ((p - (paceMins p : ℚ)) * 60)
    have hf0 : 0 ≤ ⌊(p - (paceMins p : ℚ)) * 60⌋ := Int.floor_nonneg.mpr hq0
    have hf60 : ⌊(p - (paceMins p : ℚ)) * 60⌋ < 60 := by
      rw [Int.floor_lt]
      exact_mod_cast hq60
    rw [paceSecs]
    omega

/-- C10 witness: pace `5/2` minutes per km renders with minutes `2` and
seconds `30`, inside the amended bounds. -/
theorem pace_render_spec_witness :
    0 ≤ (5/2 : ℚ) ∧
    (paceMins (5/2) = ⌊(5/2 : ℚ)⌋ ∧ 0 ≤ paceSecs (5/2) ∧ paceSecs (5/2) ≤ 60) :=
  ⟨by norm_num, pace_render_spec (5/2) (by norm_num)⟩

lemma trimpPair_nonneg (rhr maxhr dt hm : ℝ) (hdt : 0 ≤ dt) :
    0 ≤ trimpPair rhr maxhr dt hm := by
  rw [trimpPair]
  split_ifs with hx
  · exact mul_nonneg (mul_nonneg hdt hx.le) (Real.exp_pos _).le
  · exact le_refl 0

lemma trimpPair_mono (rhr maxhr dt h1 h2 : ℝ) (hw : rhr < maxhr)
    (hdt : 0 ≤ dt) (hh : h1 ≤ h2) :
    trimpPair rhr maxhr dt h1 ≤ trimpPair rhr maxhr dt h2 := by
  have hden : 0 < maxhr - rhr := by linarith
  have hx : banisterIntensity rhr maxhr h1 ≤ banisterIntensity rhr maxhr h2 := by
    rw [banisterIntensity, banisterIntensity]
    exact div_le_div_of_nonneg_right (by linarith) hden.le
  rw [trimpPair, trimpPair]
  split_ifs with hx1 hx2 hx2
  · have he : Real.exp (1.92 * banisterIntensity rhr maxhr h1) ≤
        Real.exp (1.92 * banisterIntensity rhr maxhr h2) :=
      Real.exp_le_exp.mpr (by nlinarith)
    have h1' : dt * banisterIntensity rhr maxhr h1 ≤
        dt * banisterIntensity rhr maxhr h2 :=
      mul_le_mul_of_nonneg_left hx hdt
    exact mul_le_mul h1' he (Real.exp_pos _).le
      (mul_nonneg hdt hx2.le)
  · exact absurd (lt_of_lt_of_le hx1 hx) hx2
  · exact mul_nonneg (mul_nonneg hdt hx2.le) (Real.exp_pos _).le
  · exact le_refl 0

lemma gf_total_mono (rhr maxhr : ℝ) (hw : rhr < maxhr) :
    ∀ l1 l2 : List (ℝ × Option ℝ),
      List.Chain' (fun p q => p.1 ≤ q.1) l1 →
      List.Forall₂ (fun p q => p.1 = q.1 ∧ hrRel p.2 q.2) l1 l2 →
      get_training_load_total rhr maxhr l1 ≤ get_training_load_total rhr maxhr l2
  | [], l2, _, hf => by
      cases hf
      simp [get_training_load_total]
  | [p1], l2, _, hf => by
      cases hf with
      | cons hpq hf' =>
        cases hf'
        simp [get_training_load_total]
  | p1 :: p2 :: rest, l2, hc, hf => by
      cases hf with
      | cons hpq hf' =>
        rename_i q1 l2a
        cases hf' with
        | cons hpq2 hf'' =>
          rename_i q2 l2b
          have hstep : get_training_load_total rhr maxhr (p2 :: rest) ≤
              get_training_load_total rhr maxhr (q2 :: l2b) :=
            gf_total_mono rhr maxhr hw (p2 :: rest) (q2 :: l2b)
              (List.Chain'.tail hc) (List.Forall₂.cons hpq2 hf'')
          have hts : p1.1 ≤ p2.1 := (List.chain'_cons.mp hc).1
          obtain ⟨p1t, p1h⟩ := p1
          obtain ⟨p2t, p2h⟩ := p2
          obtain ⟨q1t, q1h⟩ := q1
          obtain ⟨q2t, q2h⟩ := q2
          obtain ⟨ht1, hr1⟩ := hpq
          obtain ⟨ht2, hr2⟩ := hpq2
          dsimp only at ht1 hr1 ht2 hr2 hts
          subst ht1; subst ht2
          have hdt : (0:ℝ) ≤ (p2t - p1t) / 1000 / 60 :=
            div_nonneg (div_nonneg (by linarith) (by norm_num)) (by norm_num)
          simp only [get_training_load_total]
          apply add_le_add _ hstep
          cases p1h with
          | none =>
            cases q1h with
            | none => cases p2h <;> cases q2h <;> simp
            | some b => exact absurd hr1 (by simp [hrRel])
          | some a =>
            cases q1h with
            | none => exact absurd hr1 (by simp [hrRel])
            | some a' =>
              cases p2h with
              | none =>
                cases q2h with
                | none => simp
                | some b' => exact absurd hr2 (by simp [hrRel])
              | some b =>
                cases q2h with
                | none => exact absurd hr2 (by simp [hrRel])
                | some b' =>
                  simp only
                  have ha : a ≤ a' := hr1
                  have hb : b ≤ b' := hr2
                  exact trimpPair_mono rhr maxhr _ _ _ hw hdt (by linarith)

/-- C5: for fixed resting/max HR with `max_hr > resting_hr` and pair
duration `dt ≥ 0`, the TRIMP contribution of one consecutive sample pair
is monotonically non-decreasing in the midpoint heart rate, and
consequently raising any sample's HR (pointwise, nulls staying null, in
a chronologically ordered window) never decreases the total TRIMP. -/
theorem trimp_monotone :
    (∀ rhr maxhr dt hm1 hm2 : ℝ, rhr < maxhr → 0 ≤ dt → hm1 ≤ hm2 →
      trimpPair rhr maxhr dt hm1 ≤ trimpPair rhr maxhr dt hm2) ∧
    (∀ rhr maxhr : ℝ, rhr < maxhr → ∀ l1 l2 : List (ℝ × Option ℝ),
      List.Chain' (fun p q => p.1 ≤ q.1) l1 →
      List.Forall₂ (fun p q => p.1 = q.1 ∧ hrRel p.2 q.2) l1 l2 →
      get_training_load_total rhr maxhr l1 ≤
        get_training_load_total rhr maxhr l2) :=
  ⟨fun rhr maxhr dt hm1 hm2 hw hdt hh => trimpPair_mono rhr maxhr dt hm1 hm2 hw hdt hh,
   fun rhr maxhr hw l1 l2 hc hf => gf_total_mono rhr maxhr hw l1 l2 hc hf⟩

/-- C5 witness: with `rhr = 60`, `maxhr = 180`, `dt = 1`, midpoint HRs
100 and 120, and the corresponding one-pair series. -/
theorem trimp_monotone_witness :
    ((60:ℝ) < 180 ∧ (0:ℝ) ≤ 1 ∧ (100:ℝ) ≤ 120 ∧
      trimpPair 60 180 1 100 ≤ trimpPair 60 180 1 120) ∧
    get_training_load_total 60 180 [(0, some 100), (60000, some 110)] ≤
      get_training_load_total 60 180 [(0, some 100), (60000, some 130)] := by
  constructor
  · exact ⟨by norm_num, by norm_num, by norm_num,
      trimp_monotone.1 60 180 1 100 120 (by norm_num) (by norm_num) (by norm_num)⟩
  · exact trimp_monotone.2 60 180 (by norm_num)
      [(0, some 100), (60000, some 110)] [(0, some 100), (60000, some 130)]
      (List.chain'_pair.mpr (by norm_num))
      (List.Forall₂.cons ⟨rfl, le_refl (100:ℝ)⟩
        (List.Forall₂.cons ⟨rfl, by norm_num [hrRel]⟩ List.Forall₂.nil))

/-- C9 counterexample: on the series
`[(0ms, 100), (60000ms, null), (120000ms, 190)]` with `rhr = 60`,
`maxhr = 180`, the garmin-fetch loop skips both pairs (each touches the
null) and totals 0, while the custom_metrics loop first removes the null
and then pairs `(0,100)` with `(120000,190)`, a positive contribution. -/
theorem trimp_duplicates_counterexample :
    get_training_load_total 60 180
        [((0:ℝ), some (100:ℝ)), (60000, none), (120000, some 190)] ≠
      cm_training_load_total 60 180
        (cm_window 0 200000
          [((0:ℝ), some (100:ℝ)), (60000, none), (120000, some 190)]) := by
  have hL : get_training_load_total 60 180
      [((0:ℝ), some (100:ℝ)), (60000, none), (120000, some 190)] = 0 := by
    simp [get_training_load_total]
  have hW : cm_window 0 200000
      [((0:ℝ), some (100:ℝ)), (60000, none), (120000, some 190)] =
      [((0:ℝ), (100:ℝ)), (120000, 190)] := by
    norm_num [cm_window, List.filterMap_cons]
  have hR : cm_training_load_total 60 180 [((0:ℝ), (100:ℝ)), (120000, 190)] =
      trimpPair 60 180 2 145 := by
    simp only [cm_training_load_total]
    norm_num
  have hpos : 0 < trimpPair 60 180 2 145 := by
    have hx : (0:ℝ) < banisterIntensity 60 180 145 := by
      norm_num [banisterIntensity]
    rw [trimpPair, if_pos hx]
    have := Real.exp_pos (1.92 * banisterIntensity 60 180 145)
    positivity
  rw [hL, hW, hR]
  exact ne_of_lt hpos

/-- C9 (amended): when the intraday series has no null heart rates and
every timestamp lies inside the custom_metrics window, the two duplicate
TRIMP implementations compute the same total. -/
theorem trimp_duplicates_equiv (rhr maxhr startMs endMs : ℝ)
    (l : List (ℝ × Option ℝ))
    (hall : ∀ p ∈ l, (∃ h, p.2 = some h) ∧ startMs ≤ p.1 ∧ p.1 < endMs) :
    get_training_load_total rhr maxhr l =
      cm_training_load_total rhr maxhr (cm_window startMs endMs l) := by
  induction l with
  | nil => simp [get_training_load_total, cm_window, cm_training_load_total]
  | cons p rest ih =>
    obtain ⟨⟨hp, hps⟩, hpin⟩ := hall p (List.mem_cons_self p rest)
    have hcons : cm_window startMs endMs (p :: rest) =
        (p.1, hp) :: cm_window startMs endMs rest := by
      simp [cm_window, List.filterMap_cons, hps, hpin]
    cases rest with
    | nil =>
      rw [hcons]
      simp [get_training_load_total, cm_window, cm_training_load_total]
    | cons q rest' =>
      obtain ⟨⟨hq, hqs⟩, hqin⟩ := hall q (List.mem_cons_of_mem p (List.mem_cons_self q rest'))
      have hqcons : cm_window startMs endMs (q :: rest') =
          (q.1, hq) :: cm_window startMs endMs rest' := by
        simp [cm_window, List.filterMap_cons, hqs, hqin]
      have ihq := ih (fun r hr => hall r (List.mem_cons_of_mem p hr))
      rw [hqcons] at ihq
      obtain ⟨pt, ph⟩ := p
      obtain ⟨qt, qh⟩ := q
      dsimp only at hps hqs hcons hqcons ihq
      subst hps; subst hqs
      rw [hcons, hqcons]
      simp only [get_training_load_total, cm_training_load_total]
      rw [← hqcons, ihq, hqcons]

lemma segScan_replicate_hi (thr : ℚ) (p : ℚ × ℚ × ℚ) (hp : thr ≤ p.2.1) :
    ∀ (n : ℕ) (seg : List (ℚ × ℚ × ℚ)),
      segScan thr seg (List.replicate n p) =
        if 600 ≤ seg.length + n then [seg ++ List.replicate n p] else []
  | 0, seg => by simp [segScan]
  | n + 1, seg => by
      rw [List.replicate_succ]
      simp only [segScan, if_pos hp]
      rw [segScan_replicate_hi thr p hp n (seg ++ [p])]
      have hlen : (seg ++ [p]).length + n = seg.length + (n + 1) := by
        simp only [List.length_append, List.length_singleton]
        omega
      rw [hlen, List.append_assoc, List.singleton_append, ← List.replicate_succ]

lemma qmean_replicate (n : ℕ) (hn : n ≠ 0) (x : ℚ) :
    qmean (List.replicate n x) = x := by
  rw [qmean, List.sum_replicate, List.length_replicate, nsmul_eq_mul]
  exact mul_div_cancel_left₀ x (Nat.cast_ne_zero.mpr hn)

/-- C1 (code bug evidence): with `rhr = 60`, `maxhr = 180` (threshold
144), a 600-point contiguous run all at HR 150 pools a qualifying
segment with zero variance in X, and the regression's slope division
raises `ZeroDivisionError` instead of falling back to the ratio method;
by contrast a track whose points all sit below the threshold has no
qualifying point and does fall back, emitting the ratio value
`round2 (15.3 * (180/60)) = 45.9`. -/
theorem vo2max_segmented_eval :
    get_vo2max_segmented 60 180 (List.replicate 600 ((0:ℚ), 150, 3)) =
      .error "ZeroDivisionError" ∧
    get_vo2max_segmented 60 180 [((0:ℚ), 100, 3)] = .ok [459/10] := by
  constructor
  · have hthr : hrThreshold 60 180 = 144 := by norm_num [hrThreshold]
    have hseg : segScan (hrThreshold 60 180) [] (List.replicate 600 ((0:ℚ), 150, 3)) =
        [List.replicate 600 ((0:ℚ), 150, 3)] := by
      rw [hthr, segScan_replicate_hi 144 ((0:ℚ), 150, 3) (by norm_num) 600 [],
        List.nil_append]
      exact if_pos (by norm_num)
    have hpool : pooledPoints 60 180 (List.replicate 600 ((0:ℚ), 150, 3)) =
        List.replicate 600 ((0:ℚ), 150, 3) := by
      rw [pooledPoints, hseg, List.flatten_cons, List.flatten_nil,
        List.append_nil]
    have hne1 : List.replicate 600 (((0:ℚ), (150:ℚ), (3:ℚ)) : ℚ × ℚ × ℚ) ≠ [] := by
      intro h
      have h0 : (List.replicate 600 (((0:ℚ), (150:ℚ), (3:ℚ)) : ℚ × ℚ × ℚ)).length = 0 := by
        rw [h]
        rfl
      rw [List.length_replicate] at h0
      omega
    have hne2 : List.replicate 600 (150:ℚ) ≠ [] := by
      intro h
      have h0 : (List.replicate 600 (150:ℚ)).length = 0 := by
        rw [h]
        rfl
      rw [List.length_replicate] at h0
      omega
    unfold get_vo2max_segmented
    simp only [hne1, if_false, hpool, List.map_replicate]
    simp only [hne2, if_false]
    simp only [qmean_replicate 600 (by norm_num : (600:ℕ) ≠ 0)]
    rw [show ((150:ℚ) - 150) ^ 2 = 0 from by norm_num, List.sum_replicate,
      smul_zero]
    split_ifs with h1
    · rfl
    · exact (h1 rfl).elim
  · have hseg : segScan (hrThreshold 60 180) [] [((0:ℚ), 100, 3)] = [] := by
      norm_num [segScan, hrThreshold]
    have hpool : pooledPoints 60 180 [((0:ℚ), 100, 3)] = [] := by
      rw [pooledPoints, hseg]
      rfl
    simp only [get_vo2max_segmented, hpool, List.map_nil]
    norm_num [roundq, pyRound]

/-- C2 (code bug evidence): with resolved weight 70000 g and two
cycling activities that both carry `avgPower = 200` W, the first point's
`vo2_cyc_avg` is the ACSM value for `w = 70` kg, but the loop reassigns
`weight = weight / 1000.0` on every cycling activity, so the second
point is computed with `w = 0.07` kg and differs from the claimed
same-weight value. -/
theorem activity_vo2_weight_eval :
    get_activity_vo2 (some 70000)
        [⟨"cycling", true, none, none, some 200, none, none, none⟩,
         ⟨"cycling", true, none, none, some 200, none, none, none⟩] =
      [⟨"cycling", none, none, some (3847/100), none⟩,
       ⟨"cycling", none, none, some (3148129/100), none⟩] ∧
    vo2CycField 70 200 = 3847/100 ∧
    vo2CycField (70/1000) 200 = 3148129/100 ∧
    (3148129/100 : ℚ) ≠ 3847/100 := by
  have hA : activityTypeAllowed "cycling" = true := by decide
  have hC : cyclingLike "cycling" = true := by decide
  have hRun : ("cycling" == "running") = false := by decide
  have hf1 : vo2CycField 70 200 = 3847/100 := by
    norm_num [vo2CycField, roundq, pyRound]
  have hf2 : vo2CycField (7/100) 200 = 3148129/100 := by
    norm_num [vo2CycField, roundq, pyRound]
  refine ⟨?_, hf1, by rw [show (70:ℚ)/1000 = 7/100 by norm_num]; exact hf2,
    by norm_num⟩
  have hw1 : (70000:ℚ)/1000 = 70 := by norm_num
  have hw2 : (70:ℚ)/1000 = 7/100 := by norm_num
  have hs1 : activity_vo2_step (some 70000)
      ⟨"cycling", true, none, none, some 200, none, none, none⟩ =
      (some 70, some ⟨"cycling", none, none, some (3847/100), none⟩) := by
    simp [activity_vo2_step, hA, hC, hRun, truthyQ, firstTruthy, hw1, hf1]
  have hs2 : activity_vo2_step (some 70)
      ⟨"cycling", true, none, none, some 200, none, none, none⟩ =
      (some (7/100), some ⟨"cycling", none, none, some (3148129/100), none⟩) := by
    simp [activity_vo2_step, hA, hC, hRun, truthyQ, firstTruthy, hw2, hf2]
  simp only [get_activity_vo2, activity_vo2_go, hs1, hs2]

/-- C4 (code bug evidence): a same-day sleep record whose `sleepScore`
column is null (while `avgOvernightHrv` is present) makes the scorer
raise `TypeError` at `min(sleep_last / 100.0, 1.0)` instead of emitting
a point; on an input where all six sub-scores are 1.0 the scorer emits
exactly one point whose readiness is `round(100 * weighted sum) = 100`,
and the six weights sum to 1. -/
theorem training_readiness_eval :
    get_training_readiness [] [] (some (none, some 50)) [] [] =
      .error "TypeError" ∧
    get_training_readiness [] [] (some (some 100, some 50))
        [100, 100, 100] [0, 0, 0] =
      .ok [⟨100, 0, 0, 0, 100, 100, 50, 0⟩] ∧
    (1/5 + 1/5 + 1/5 + 3/20 + 3/20 + 1/10 : ℚ) = 1 := by
  refine ⟨?_, ?_, by norm_num⟩
  · simp [get_training_readiness]
  · norm_num [get_training_readiness, qmean, min_def, roundq, pyRound]

/-- C9 witness: a concrete two-sample null-free series inside the window. -/
theorem trimp_duplicates_equiv_witness :
    get_training_load_total 60 180 [((0:ℝ), some (100:ℝ)), (60000, some 120)] =
      cm_training_load_total 60 180
        (cm_window 0 100000 [((0:ℝ), some (100:ℝ)), (60000, some 120)]) := by
  apply trimp_duplicates_equiv 60 180 0 100000
  intro p hp
  rcases List.mem_cons.mp hp with h | h
  · subst h
    exact ⟨⟨100, rfl⟩, by norm_num, by norm_num⟩
  · rcases List.mem_singleton.mp h with rfl
    exact ⟨⟨120, rfl⟩, by norm_num, by norm_num⟩

end GarminMetrics
